import Mathlib

/-!
Shallow embedding of the jira-xray-integration Go service: the jira client
package (src/unnamed/part_000, package jira), the HTTP handlers of main.go,
and the configuration loader of config.go.

Modelling conventions:
- time.Time is modelled as Int at day granularity; time.Now() becomes an
  explicit parameter `now`, and t.AddDate(0, 0, d) becomes t + d.
- map[string]interface{} custom fields are carried as opaque key/value pairs;
  the code never constructs or inspects them.
- The single outbound HTTP call of each client operation is modelled by a
  `BackendResult` oracle describing how the backend replies (transport error,
  or a response with a status code and a body that is empty, decodable, or
  malformed).  Each operation also returns the list of backend calls it
  issued, so that absence of network traffic is provable.
- The environment is a partial map String -> Option String; os.Getenv
  returns the empty string for an unset variable.
-/

namespace JiraXray

/-- Go zero value of time.Time in this model. -/
abbrev Time := Int

/-- TestCase from jira/models.go; field defaults are the Go zero values. -/
structure TestCase where
  ID : String := ""
  Key : String := ""
  Summary : String := ""
  Description : String := ""
  Status : String := ""
  Priority : String := ""
  Labels : List String := []
  Components : List String := []
  TestType : String := ""
  CreatedDate : Time := 0
  UpdatedDate : Time := 0
  Reporter : String := ""
  Assignee : String := ""
  CustomFields : List (String × String) := []
deriving DecidableEq, Repr

/-- TestResult from jira/models.go. -/
structure TestResult where
  TestCaseKey : String := ""
  Status : String := ""
  Comment : String := ""
  ExecutionTime : Int := 0
  ExecutedBy : String := ""
  ExecutedOn : Time := 0
  Defects : List String := []
  Evidence : List String := []
deriving DecidableEq, Repr

/-- TestExecution from jira/models.go. -/
structure TestExecution where
  ID : String := ""
  Key : String := ""
  Summary : String := ""
  Description : String := ""
  Status : String := ""
  TestCases : List String := []
  ExecutionStatus : String := ""
  StartDate : Time := 0
  EndDate : Time := 0
  ExecutedBy : String := ""
  Environment : String := ""
  TestResults : List TestResult := []
  CustomFields : List (String × String) := []
deriving DecidableEq, Repr

/-- IssueType from jira/models.go (wire field names). -/
structure IssueType where
  id : String := ""
  name : String := ""
deriving DecidableEq, Repr

/-- Project from jira/models.go. -/
structure Project where
  key : String := ""
  name : String := ""
deriving DecidableEq, Repr

/-- Priority from jira/models.go. -/
structure Priority where
  id : String := ""
  name : String := ""
deriving DecidableEq, Repr

/-- Status from jira/models.go. -/
structure Status where
  id : String := ""
  name : String := ""
deriving DecidableEq, Repr

/-- User from jira/models.go. -/
structure User where
  accountId : String := ""
  emailAddress : String := ""
  displayName : String := ""
deriving DecidableEq, Repr

/-- Component from jira/models.go. -/
structure Component where
  id : String := ""
  name : String := ""
deriving DecidableEq, Repr

/-- IssueFields from jira/models.go; unassigned fields keep Go zero values. -/
structure IssueFields where
  summary : String := ""
  description : String := ""
  issuetype : IssueType := {}
  project : Project := {}
  priority : Priority := {}
  status : Status := {}
  reporter : User := {}
  assignee : User := {}
  labels : List String := []
  components : List Component := []
deriving DecidableEq, Repr

/-- JiraIssue from jira/models.go. -/
structure JiraIssue where
  id : String := ""
  key : String := ""
  fields : IssueFields := {}
deriving DecidableEq, Repr

/-- JiraResponse from jira/models.go. -/
structure JiraResponse where
  issues : List JiraIssue := []
  startAt : Int := 0
  maxResults : Int := 0
  total : Int := 0
deriving DecidableEq, Repr

/-- ErrorResponse from jira/models.go. -/
structure ErrorResponse where
  errorMessages : List String := []
  errors : List (String × String) := []
deriving DecidableEq, Repr

/-- CreateIssueRequest from jira/models.go. -/
structure CreateIssueRequest where
  fields : IssueFields := {}
deriving DecidableEq, Repr

/-- CreateIssueResponse from jira/models.go. -/
structure CreateIssueResponse where
  id : String := ""
  key : String := ""
  self : String := ""
deriving DecidableEq, Repr

/-- The jira Client of the client file (the HTTP handle itself is not data). -/
structure Client where
  BaseURL : String := ""
  Username : String := ""
  APIToken : String := ""
  ProjectKey : String := ""
deriving DecidableEq, Repr

/-- strings.TrimSuffix: drop one trailing occurrence of the suffix. -/
def trimSuffix (s suffix : String) : String :=
  if s.endsWith suffix then s.dropRight suffix.length else s

/-- NewClient from the client file. -/
def NewClient (baseURL username apiToken projectKey : String) : Client :=
  { BaseURL := trimSuffix baseURL "/"
    Username := username
    APIToken := apiToken
    ProjectKey := projectKey }

/-- isDemoCredentials from the client file. -/
def Client.isDemoCredentials (c : Client) : Bool :=
  c.Username == "demo_user" || c.APIToken == "demo_token_replace_with_actual"

/-- How the raw response body relates to the decoding target type. -/
inductive BodyParse (α : Type) where
  | empty
  | decoded (a : α)
  | malformed
deriving DecidableEq, Repr

/-- One HTTP response from the backend, as seen by handleResponse: the status
code, the body viewed through the decoding target, and what unmarshalling the
body as an ErrorResponse yields (used only on the status >= 400 branch). -/
structure Resp (α : Type) where
  status : Nat
  body : BodyParse α
  errorParse : Option ErrorResponse := none
deriving DecidableEq, Repr

/-- Outcome of the single outbound HTTP call of an operation. -/
inductive BackendResult (α : Type) where
  | transportErr (msg : String)
  | resp (r : Resp α)
deriving DecidableEq, Repr

/-- Errors surfaced by the client, mirroring the error paths of the client
file: a wrapped transport failure, an HTTP status >= 400 (with the optional
parsed ErrorResponse), and an undecodable success body. -/
inductive JiraError where
  | transport (msg : String)
  | httpError (status : Nat) (parsed : Option ErrorResponse)
  | decodeError
deriving DecidableEq, Repr

/-- Rendering of a JiraError as the err.Error() string used in 500 bodies. -/
def jiraErrorMessage : JiraError → String
  | .transport m => m
  | .httpError s _ => "Jira API error (HTTP " ++ toString s ++ ")"
  | .decodeError => "failed to unmarshal response"

/-- Body of the request sent to the backend in a recorded call. -/
inductive RequestBody where
  | empty
  | createIssue (req : CreateIssueRequest)
deriving DecidableEq, Repr

/-- One recorded outbound backend call: method, endpoint, body. -/
structure BackendCall where
  method : String
  endpoint : String
  body : RequestBody := .empty
deriving DecidableEq, Repr

/-- handleResponse from the client file: status >= 400 is an error carrying
the body parsed as ErrorResponse when that parse succeeds; otherwise an empty
body leaves the target at its zero value, a decodable body yields its value,
and a malformed body is a decode error. -/
def handleResponse {α : Type} (r : Resp α) (d : α) : Except JiraError α :=
  if 400 ≤ r.status then
    .error (.httpError r.status r.errorParse)
  else
    match r.body with
    | .empty => .ok d
    | .decoded a => .ok a
    | .malformed => .error .decodeError

/-- Mock test cases returned by the demo fallback of ListTestCases. -/
def getMockTestCases (now : Time) : List TestCase :=
  [ { ID := "10001"
      Key := "TEST-1"
      Summary := "Login functionality test"
      Description := "Test user login with valid credentials"
      Status := "To Do"
      Priority := "High"
      Labels := ["login", "authentication"]
      TestType := "Manual"
      CreatedDate := now - 7
      Reporter := "Demo User" }
  , { ID := "10002"
      Key := "TEST-2"
      Summary := "Password reset functionality"
      Description := "Test password reset flow"
      Status := "In Progress"
      Priority := "Medium"
      Labels := ["password", "reset"]
      TestType := "Automated"
      CreatedDate := now - 5
      Reporter := "Demo User" }
  , { ID := "10003"
      Key := "TEST-3"
      Summary := "User registration validation"
      Description := "Test user registration with various input validations"
      Status := "Done"
      Priority := "Medium"
      Labels := ["registration", "validation"]
      TestType := "Manual"
      CreatedDate := now - 3
      Reporter := "Demo User" }
  ]

/-- createMockTestCase from the client file: copies tc and overwrites ID,
Key, Status, CreatedDate (with the current time) and Reporter. -/
def createMockTestCase (tc : TestCase) (now : Time) : TestCase :=
  { tc with
    ID := "10004"
    Key := "TEST-4"
    Status := "To Do"
    CreatedDate := now
    Reporter := "Demo User" }

/-- createMockTestExecution from the client file. -/
def createMockTestExecution (te : TestExecution) (now : Time) : TestExecution :=
  { te with
    ID := "10005"
    Key := "EXEC-1"
    Status := "To Do"
    ExecutionStatus := "TODO"
    StartDate := now
    ExecutedBy := "Demo User" }

/-- getMockTestExecution from the client file: the requested key is echoed,
every other field is the canned demo execution. -/
def getMockTestExecution (key : String) (now : Time) : TestExecution :=
  { ID := "10005"
    Key := key
    Summary := "Demo Test Execution"
    Description := "This is a demo test execution"
    Status := "In Progress"
    TestCases := ["TEST-1", "TEST-2"]
    ExecutionStatus := "EXECUTING"
    StartDate := now - 1
    ExecutedBy := "Demo User"
    Environment := "QA"
    TestResults :=
      [ { TestCaseKey := "TEST-1"
          Status := "PASS"
          Comment := "Test passed successfully"
          ExecutionTime := 5000
          ExecutedBy := "Demo User"
          ExecutedOn := now }
      , { TestCaseKey := "TEST-2"
          Status := "FAIL"
          Comment := "Test failed due to timeout"
          ExecutionTime := 10000
          ExecutedBy := "Demo User"
          ExecutedOn := now
          Defects := ["BUG-123"] }
      ] }

/-- The search endpoint built by ListTestCases. -/
def listEndpoint (c : Client) : String :=
  "search?jql=project = " ++ c.ProjectKey ++ " AND issuetype = Test&maxResults=100"

/-- Issue to TestCase conversion performed inside ListTestCases; fields not
assigned by the Go literal keep their zero values. -/
def convertIssue (issue : JiraIssue) : TestCase :=
  { ID := issue.id
    Key := issue.key
    Summary := issue.fields.summary
    Description := issue.fields.description
    Status := issue.fields.status.name
    Priority := issue.fields.priority.name
    Labels := issue.fields.labels
    Reporter := issue.fields.reporter.displayName
    Assignee := issue.fields.assignee.displayName }

/-- ListTestCases from the client file.  The backend call is always
attempted; a transport failure propagates (even in demo mode, the demo check
sits only on the handleResponse error branch); a handleResponse failure
returns the mock set under demo credentials and the error otherwise; a
success returns the converted issues. -/
def ListTestCases (c : Client) (now : Time)
    (backend : BackendResult JiraResponse) :
    Except JiraError (List TestCase) × List BackendCall :=
  let call : BackendCall := { method := "GET", endpoint := listEndpoint c }
  match backend with
  | .transportErr m =>
      (.error (.transport ("failed to fetch test cases: " ++ m)), [call])
  | .resp r =>
      match handleResponse r ({} : JiraResponse) with
      | .error e =>
          if c.isDemoCredentials then (.ok (getMockTestCases now), [call])
          else (.error e, [call])
      | .ok jiraResp => (.ok (jiraResp.issues.map convertIssue), [call])

/-- The CreateIssueRequest built by CreateTestCase: summary, description,
issue type Test, project key from the client, labels; the priority field is
assigned only when tc.Priority is non-empty and otherwise stays at the Go
zero value (the field carries an omitempty serialization tag). -/
def createTestCaseReq (c : Client) (tc : TestCase) : CreateIssueRequest :=
  let base : CreateIssueRequest :=
    { fields :=
      { summary := tc.Summary
        description := tc.Description
        issuetype := { name := "Test" }
        project := { key := c.ProjectKey }
        labels := tc.Labels } }
  if tc.Priority ≠ "" then
    { base with fields := { base.fields with priority := { name := tc.Priority } } }
  else base

/-- CreateTestCase from the client file: demo credentials short-circuit to
the mock with no backend call; otherwise one POST issue call is made and on
success the input is copied with backend id/key, status To Do and the
current time as CreatedDate. -/
def CreateTestCase (c : Client) (now : Time) (tc : TestCase)
    (backend : BackendResult CreateIssueResponse) :
    Except JiraError TestCase × List BackendCall :=
  if c.isDemoCredentials then
    (.ok (createMockTestCase tc now), [])
  else
    let req := createTestCaseReq c tc
    let call : BackendCall := { method := "POST", endpoint := "issue", body := .createIssue req }
    match backend with
    | .transportErr m =>
        (.error (.transport ("failed to create test case: " ++ m)), [call])
    | .resp r =>
        match handleResponse r ({} : CreateIssueResponse) with
        | .error e => (.error e, [call])
        | .ok createResp =>
            (.ok { tc with
                    ID := createResp.id
                    Key := createResp.key
                    Status := "To Do"
                    CreatedDate := now }, [call])

/-- The CreateIssueRequest built by CreateTestExecution: only summary,
description, issue type Test Execution and the project key are assigned;
every other payload field stays at its zero value. -/
def createTestExecutionReq (c : Client) (te : TestExecution) : CreateIssueRequest :=
  { fields :=
    { summary := te.Summary
      description := te.Description
      issuetype := { name := "Test Execution" }
      project := { key := c.ProjectKey } } }

/-- CreateTestExecution from the client file. -/
def CreateTestExecution (c : Client) (now : Time) (te : TestExecution)
    (backend : BackendResult CreateIssueResponse) :
    Except JiraError TestExecution × List BackendCall :=
  if c.isDemoCredentials then
    (.ok (createMockTestExecution te now), [])
  else
    let req := createTestExecutionReq c te
    let call : BackendCall := { method := "POST", endpoint := "issue", body := .createIssue req }
    match backend with
    | .transportErr m =>
        (.error (.transport ("failed to create test execution: " ++ m)), [call])
    | .resp r =>
        match handleResponse r ({} : CreateIssueResponse) with
        | .error e => (.error e, [call])
        | .ok createResp =>
            (.ok { te with
                    ID := createResp.id
                    Key := createResp.key
                    Status := "To Do"
                    ExecutionStatus := "TODO"
                    StartDate := now }, [call])

/-- GetTestExecution from the client file: demo credentials short-circuit to
the canned execution with no backend call; otherwise one GET call is made
and on success only summary, description and status are mapped back. -/
def GetTestExecution (c : Client) (now : Time) (key : String)
    (backend : BackendResult JiraIssue) :
    Except JiraError TestExecution × List BackendCall :=
  if c.isDemoCredentials then
    (.ok (getMockTestExecution key now), [])
  else
    let call : BackendCall := { method := "GET", endpoint := "issue/" ++ key }
    match backend with
    | .transportErr m =>
        (.error (.transport ("failed to fetch test execution: " ++ m)), [call])
    | .resp r =>
        match handleResponse r ({} : JiraIssue) with
        | .error e => (.error e, [call])
        | .ok issue =>
            (.ok { ID := issue.id
                   Key := issue.key
                   Summary := issue.fields.summary
                   Description := issue.fields.description
                   Status := issue.fields.status.name }, [call])

/-- JSON error body emitted by the handlers: an error message and optional
details. -/
structure ErrorBody where
  error : String
  details : Option String := none
deriving DecidableEq, Repr

/-- Response of the POST /api/testcases handler: an HTTP status together
with either an error body or the created entity and message. -/
inductive CreateTestCaseResp where
  | failure (status : Nat) (body : ErrorBody)
  | created (status : Nat) (testCase : TestCase) (message : String)
deriving DecidableEq, Repr

/-- createTestCase handler of main.go.  ShouldBindJSON is modelled as an
already-performed JSON decode of the request body (Except.error is a bind
failure).  A bind failure or an empty summary yields 400 before any client
call; otherwise the client is invoked and its error becomes a 500. -/
def createTestCase (c : Client) (now : Time) (bind : Except String TestCase)
    (backend : BackendResult CreateIssueResponse) :
    CreateTestCaseResp × List BackendCall :=
  match bind with
  | .error m =>
      (.failure 400 { error := "Invalid request body", details := some m }, [])
  | .ok testCase =>
      if testCase.Summary = "" then
        (.failure 400 { error := "Summary is required" }, [])
      else
        match CreateTestCase c now testCase backend with
        | (.error e, calls) =>
            (.failure 500 { error := "Failed to create test case"
                            details := some (jiraErrorMessage e) }, calls)
        | (.ok createdTestCase, calls) =>
            (.created 201 createdTestCase "Test case created successfully", calls)

/-- Response of the POST /api/testexecutions handler. -/
inductive CreateTestExecutionResp where
  | failure (status : Nat) (body : ErrorBody)
  | created (status : Nat) (testExecution : TestExecution) (message : String)
deriving DecidableEq, Repr

/-- createTestExecution handler of main.go: bind failure, empty summary and
empty testCases list each yield 400 before any client call. -/
def createTestExecution (c : Client) (now : Time)
    (bind : Except String TestExecution)
    (backend : BackendResult CreateIssueResponse) :
    CreateTestExecutionResp × List BackendCall :=
  match bind with
  | .error m =>
      (.failure 400 { error := "Invalid request body", details := some m }, [])
  | .ok testExecution =>
      if testExecution.Summary = "" then
        (.failure 400 { error := "Summary is required" }, [])
      else if testExecution.TestCases.length = 0 then
        (.failure 400 { error := "At least one test case is required" }, [])
      else
        match CreateTestExecution c now testExecution backend with
        | (.error e, calls) =>
            (.failure 500 { error := "Failed to create test execution"
                            details := some (jiraErrorMessage e) }, calls)
        | (.ok createdTestExecution, calls) =>
            (.created 201 createdTestExecution "Test execution created successfully", calls)

/-- The canned entity body of the GET /api/testcases/:key handler. -/
structure MockTestCaseBody where
  id : String
  key : String
  summary : String
  description : String
  status : String
  priority : String
deriving DecidableEq, Repr

/-- Response of the GET /api/testcases/:key handler. -/
structure GetTestCaseResp where
  status : Nat
  testCase : MockTestCaseBody
  message : String
deriving DecidableEq, Repr

/-- getTestCase handler of main.go: it reads only the :key path parameter,
never the jira client or the configuration, and answers 200 with a canned
entity echoing the key.  The empty call list records that no backend call
is issued. -/
def getTestCase (key : String) : GetTestCaseResp × List BackendCall :=
  ({ status := 200
     testCase :=
       { id := "10001"
         key := key
         summary := "Sample Test Case"
         description := "This is a sample test case"
         status := "To Do"
         priority := "Medium" }
     message := "Test case retrieved successfully" }, [])

/-- Config from config.go. -/
structure Config where
  JiraBaseURL : String := ""
  JiraUsername : String := ""
  JiraAPIToken : String := ""
  JiraProjectKey : String := ""
  Port : String := ""
deriving DecidableEq, Repr

/-- The process environment: a variable is either absent (none) or set to a
string, possibly empty. -/
abbrev Env := String → Option String

/-- os.Getenv: the empty string both for an unset variable and for one set
to the empty string. -/
def getenv (env : Env) (key : String) : String :=
  (env key).getD ""

/-- getEnvOrDefault from config.go. -/
def getEnvOrDefault (env : Env) (key defaultValue : String) : String :=
  let value := getenv env key
  if value ≠ "" then value else defaultValue

/-- LoadConfig from config.go: reads the five variables, then fails on the
first required one that is empty. -/
def LoadConfig (env : Env) : Except String Config :=
  let config : Config :=
    { JiraBaseURL := getEnvOrDefault env "JIRA_BASE_URL" ""
      JiraUsername := getEnvOrDefault env "JIRA_USERNAME" ""
      JiraAPIToken := getEnvOrDefault env "JIRA_API_TOKEN" ""
      JiraProjectKey := getEnvOrDefault env "JIRA_PROJECT_KEY" ""
      Port := getEnvOrDefault env "PORT" "8080" }
  if config.JiraBaseURL = "" then .error "JIRA_BASE_URL is required"
  else if config.JiraUsername = "" then .error "JIRA_USERNAME is required"
  else if config.JiraAPIToken = "" then .error "JIRA_API_TOKEN is required"
  else if config.JiraProjectKey = "" then .error "JIRA_PROJECT_KEY is required"
  else .ok config

/-- The jira section of the /api/health response body (main.go healthCheck):
demo_mode is computed from the username alone. -/
structure HealthJira where
  base_url : String
  project_key : String
  demo_mode : Bool
deriving DecidableEq, Repr

/-- healthCheck handler of main.go, restricted to its jira section. -/
def healthCheck (config : Config) : HealthJira :=
  { base_url := config.JiraBaseURL
    project_key := config.JiraProjectKey
    demo_mode := config.JiraUsername == "demo_user" }

/-- The configuration section of the /api/info response body (main.go
getAPIInfo): demo_mode is again computed from the username alone. -/
structure APIInfoConfiguration where
  jira_base_url : String
  project_key : String
  demo_mode : Bool
deriving DecidableEq, Repr

/-- getAPIInfo handler of main.go, restricted to its configuration section. -/
def getAPIInfo (config : Config) : APIInfoConfiguration :=
  { jira_base_url := config.JiraBaseURL
    project_key := config.JiraProjectKey
    demo_mode := config.JiraUsername == "demo_user" }

/-- HTTP status of a createTestExecution handler response. -/
def CreateTestExecutionResp.statusCode : CreateTestExecutionResp → Nat
  | .failure s _ => s
  | .created s _ _ => s

/-- A configuration whose username is not the demo placeholder but whose API
token is: the client treats it as demo, the handlers do not. -/
def demoConfig : Config :=
  { JiraBaseURL := "https://example.atlassian.net"
    JiraUsername := "alice@example.com"
    JiraAPIToken := "demo_token_replace_with_actual"
    JiraProjectKey := "PROJ"
    Port := "8080" }

/-- The client built from demoConfig, as main.go builds it. -/
def demoClient : Client :=
  NewClient demoConfig.JiraBaseURL demoConfig.JiraUsername
    demoConfig.JiraAPIToken demoConfig.JiraProjectKey

/-- A client with non-demo credentials. -/
def realClient : Client :=
  NewClient "https://real.atlassian.net/" "bob@example.com" "secret-token" "PROJ"

/-- A concrete test case input. -/
def sampleTC : TestCase :=
  { Summary := "Login functionality test"
    Description := "Test user login with valid credentials"
    Priority := "High"
    Labels := ["login"]
    TestType := "Manual"
    Assignee := "Bob" }

/-- A concrete test execution input. -/
def sampleTE : TestExecution :=
  { Summary := "Sprint 1"
    Description := "Execute all test cases for Sprint 1"
    TestCases := ["TEST-1", "TEST-2"]
    Environment := "QA" }

/-- Like sampleTE but with different domain-only fields. -/
def sampleTE2 : TestExecution :=
  { Summary := "Sprint 1"
    Description := "Execute all test cases for Sprint 1"
    TestCases := ["TEST-3"]
    ExecutionStatus := "PASS"
    Environment := "Staging" }

/-- An environment with the base URL and PORT set to the empty string. -/
def env0 : Env := fun k =>
  if k = "JIRA_BASE_URL" then some "" else if k = "PORT" then some "" else some "x"

/-- An environment with PORT absent and all other variables set. -/
def env1 : Env := fun k => if k = "PORT" then none else some "x"

/-- Converted backend issues can never coincide with the canned demo list:
conversion always leaves TestType at its zero value while the first canned
record carries TestType Manual. -/
theorem convertedIssuesNeMock (issues : List JiraIssue) (now : Time) :
    issues.map convertIssue ≠ getMockTestCases now := by
  intro h
  have h2 := congrArg List.head? h
  cases issues with
  | nil => simp [getMockTestCases] at h2
  | cons i is =>
      simp [getMockTestCases, convertIssue] at h2
      obtain ⟨-, -, -, -, -, -, -, h8, -⟩ := h2
      exact absurd h8 (by decide)

/-- Claim C1, counterexample: under demo credentials CreateTestCase makes no
backend call, but the returned copy also overwrites CreatedDate with the
current time, so not every field other than id, key, status and reporter is
echoed unchanged. -/
theorem c1_createdDate_not_echoed_cex :
    CreateTestCase demoClient 1 sampleTC (.transportErr "down") =
      (.ok (createMockTestCase sampleTC 1), []) ∧
    (createMockTestCase sampleTC 1).CreatedDate ≠ sampleTC.CreatedDate :=
  ⟨rfl, by decide⟩

/-- Claim C1, amended: when the credentials are demo credentials,
CreateTestCase issues no backend call and returns a copy of tc in which
exactly id, key, status, reporter and createdDate are overwritten (with
"10004", "TEST-4", "To Do", "Demo User" and the current time) while every
other field of tc is echoed unchanged. -/
theorem c1_demo_create_overwrites_fixed_fields (c : Client) (now : Time)
    (tc : TestCase) (backend : BackendResult CreateIssueResponse)
    (h : c.isDemoCredentials = true) :
    CreateTestCase c now tc backend =
      (.ok { tc with
              ID := "10004"
              Key := "TEST-4"
              Status := "To Do"
              CreatedDate := now
              Reporter := "Demo User" }, []) := by
  simp [CreateTestCase, h, createMockTestCase]

/-- Witness for c1_demo_create_overwrites_fixed_fields at a concrete demo
client, time and input. -/
theorem c1_demo_create_witness :
    CreateTestCase demoClient 5 sampleTC (.transportErr "down") =
      (.ok { sampleTC with
              ID := "10004"
              Key := "TEST-4"
              Status := "To Do"
              CreatedDate := 5
              Reporter := "Demo User" }, []) :=
  c1_demo_create_overwrites_fixed_fields demoClient 5 sampleTC (.transportErr "down") rfl

/-- Claim C2: ListTestCases always attempts the backend call first; when the
response is handled successfully it returns the mapped backend data and never
the canned set; when response handling fails it returns the three canned
records under demo credentials and propagates the error otherwise; a
transport failure propagates as an error. -/
theorem c2_list_demo_fallback_only_on_failure (c : Client) (now : Time)
    (backend : BackendResult JiraResponse) :
    (∀ r jiraResp, backend = .resp r →
        handleResponse r ({} : JiraResponse) = .ok jiraResp →
        (ListTestCases c now backend).1 = .ok (jiraResp.issues.map convertIssue) ∧
        (ListTestCases c now backend).1 ≠ .ok (getMockTestCases now)) ∧
    (∀ r e, backend = .resp r →
        handleResponse r ({} : JiraResponse) = .error e →
        c.isDemoCredentials = true →
        (ListTestCases c now backend).1 = .ok (getMockTestCases now)) ∧
    (∀ r e, backend = .resp r →
        handleResponse r ({} : JiraResponse) = .error e →
        c.isDemoCredentials = false →
        (ListTestCases c now backend).1 = .error e) ∧
    (∀ m, backend = .transportErr m →
        (ListTestCases c now backend).1 =
          .error (.transport ("failed to fetch test cases: " ++ m))) ∧
    (ListTestCases c now backend).2 = [{ method := "GET", endpoint := listEndpoint c }] := by
  refine ⟨?_, ?_, ?_, ?_, ?_⟩
  · intro r jiraResp hb hh
    subst hb
    have hres : (ListTestCases c now (.resp r)).1 =
        .ok (jiraResp.issues.map convertIssue) := by
      simp [ListTestCases, hh]
    refine ⟨hres, ?_⟩
    rw [hres]
    intro hcontra
    exact convertedIssuesNeMock jiraResp.issues now (by
      injection hcontra)
  · intro r e hb hh hdemo
    subst hb
    simp [ListTestCases, hh, hdemo]
  · intro r e hb hh hdemo
    subst hb
    simp [ListTestCases, hh, hdemo]
  · intro m hb
    subst hb
    simp [ListTestCases]
  · cases backend with
    | transportErr m => simp [ListTestCases]
    | resp r =>
        cases hh : handleResponse r ({} : JiraResponse) with
        | error e =>
            cases hdemo : c.isDemoCredentials <;> simp [ListTestCases, hh, hdemo]
        | ok jiraResp => simp [ListTestCases, hh]

/-- Witness for c2_list_demo_fallback_only_on_failure: a non-demo client with
a 500 response propagates the error, and the call was attempted. -/
theorem c2_list_witness :
    (ListTestCases realClient 0
        (.resp { status := 500, body := .malformed })).1 =
      .error (.httpError 500 none) ∧
    (ListTestCases realClient 0
        (.resp { status := 500, body := .malformed })).2 =
      [{ method := "GET", endpoint := listEndpoint realClient }] :=
  ⟨(c2_list_demo_fallback_only_on_failure realClient 0
      (.resp { status := 500, body := .malformed })).2.2.1
      { status := 500, body := .malformed } (.httpError 500 none) rfl rfl rfl,
   (c2_list_demo_fallback_only_on_failure realClient 0
      (.resp { status := 500, body := .malformed })).2.2.2.2⟩

/-- Claim C3: under demo credentials GetTestExecution makes no backend call
and returns the canned execution whose Key is the exact requested key, whose
other fields are the fixed canned values, and whose TestResults are exactly
one PASS record and one FAIL record carrying defect BUG-123. -/
theorem c3_get_execution_demo_echoes_key (c : Client) (now : Time)
    (key : String) (backend : BackendResult JiraIssue)
    (h : c.isDemoCredentials = true) :
    GetTestExecution c now key backend =
      (.ok { ID := "10005"
             Key := key
             Summary := "Demo Test Execution"
             Description := "This is a demo test execution"
             Status := "In Progress"
             TestCases := ["TEST-1", "TEST-2"]
             ExecutionStatus := "EXECUTING"
             StartDate := now - 1
             ExecutedBy := "Demo User"
             Environment := "QA"
             TestResults :=
               [ { TestCaseKey := "TEST-1"
                   Status := "PASS"
                   Comment := "Test passed successfully"
                   ExecutionTime := 5000
                   ExecutedBy := "Demo User"
                   ExecutedOn := now }
               , { TestCaseKey := "TEST-2"
                   Status := "FAIL"
                   Comment := "Test failed due to timeout"
                   ExecutionTime := 10000
                   ExecutedBy := "Demo User"
                   ExecutedOn := now
                   Defects := ["BUG-123"] } ] }, []) := by
  simp [GetTestExecution, h, getMockTestExecution]

/-- Witness for c3_get_execution_demo_echoes_key at a concrete key. -/
theorem c3_get_execution_witness :
    GetTestExecution demoClient 3 "EXEC-7" (.transportErr "down") =
      (.ok { ID := "10005"
             Key := "EXEC-7"
             Summary := "Demo Test Execution"
             Description := "This is a demo test execution"
             Status := "In Progress"
             TestCases := ["TEST-1", "TEST-2"]
             ExecutionStatus := "EXECUTING"
             StartDate := 3 - 1
             ExecutedBy := "Demo User"
             Environment := "QA"
             TestResults :=
               [ { TestCaseKey := "TEST-1"
                   Status := "PASS"
                   Comment := "Test passed successfully"
                   ExecutionTime := 5000
                   ExecutedBy := "Demo User"
                   ExecutedOn := 3 }
               , { TestCaseKey := "TEST-2"
                   Status := "FAIL"
                   Comment := "Test failed due to timeout"
                   ExecutionTime := 10000
                   ExecutedBy := "Demo User"
                   ExecutedOn := 3
                   Defects := ["BUG-123"] } ] }, []) :=
  c3_get_execution_demo_echoes_key demoClient 3 "EXEC-7" (.transportErr "down") rfl

/-- Claim C4: a POST /api/testcases request whose decoded TestCase body has
an empty summary is answered 400 with the message Summary is required, and
no backend call is made. -/
theorem c4_create_testcase_empty_summary_400 (c : Client) (now : Time)
    (tc : TestCase) (backend : BackendResult CreateIssueResponse)
    (h : tc.Summary = "") :
    createTestCase c now (.ok tc) backend =
      (.failure 400 { error := "Summary is required" }, []) := by
  simp [createTestCase, h]

/-- Witness for c4_create_testcase_empty_summary_400 at a concrete body with
empty summary. -/
theorem c4_empty_summary_witness :
    createTestCase realClient 0 (.ok { Description := "no summary" })
        (.transportErr "down") =
      (.failure 400 { error := "Summary is required" }, []) :=
  c4_create_testcase_empty_summary_400 realClient 0 { Description := "no summary" }
    (.transportErr "down") rfl

/-- Claim C5: a POST /api/testexecutions request whose decoded TestExecution
body has an empty testCases list is answered with HTTP status 400 and no
backend call is made (the message is Summary is required when the summary is
also empty, and At least one test case is required otherwise). -/
theorem c5_create_execution_empty_list_400 (c : Client) (now : Time)
    (te : TestExecution) (backend : BackendResult CreateIssueResponse)
    (h : te.TestCases = []) :
    (createTestExecution c now (.ok te) backend).1.statusCode = 400 ∧
    (createTestExecution c now (.ok te) backend).2 = [] := by
  by_cases hs : te.Summary = "" <;>
    simp [createTestExecution, h, hs, CreateTestExecutionResp.statusCode]

/-- Witness for c5_create_execution_empty_list_400 at a concrete body with a
summary but no test cases. -/
theorem c5_empty_list_witness :
    (createTestExecution realClient 0 (.ok { Summary := "Sprint 1" })
        (.transportErr "down")).1.statusCode = 400 ∧
    (createTestExecution realClient 0 (.ok { Summary := "Sprint 1" })
        (.transportErr "down")).2 = [] :=
  c5_create_execution_empty_list_400 realClient 0 { Summary := "Sprint 1" }
    (.transportErr "down") rfl

/-- Claim C6: the issue-creation payload of CreateTestCase maps summary,
description, labels verbatim, uses issue type Test and the configured
project key, and assigns the priority field exactly when tc.Priority is
non-empty, leaving it at the omitempty-tagged zero value otherwise. -/
theorem c6_testcase_payload_mapping (c : Client) (tc : TestCase) :
    (createTestCaseReq c tc).fields.summary = tc.Summary ∧
    (createTestCaseReq c tc).fields.description = tc.Description ∧
    (createTestCaseReq c tc).fields.issuetype = { name := "Test" } ∧
    (createTestCaseReq c tc).fields.labels = tc.Labels ∧
    (createTestCaseReq c tc).fields.project = { key := c.ProjectKey } ∧
    (tc.Priority ≠ "" →
      (createTestCaseReq c tc).fields.priority = { name := tc.Priority }) ∧
    (tc.Priority = "" →
      (createTestCaseReq c tc).fields.priority = ({} : Priority)) := by
  by_cases h : tc.Priority = "" <;> simp [createTestCaseReq, h]

/-- Witness for c6_testcase_payload_mapping: the priority field is assigned
for a non-empty priority and stays at the zero value for an empty one. -/
theorem c6_payload_witness :
    (createTestCaseReq realClient sampleTC).fields.priority = { name := "High" } ∧
    (createTestCaseReq realClient ({} : TestCase)).fields.priority = ({} : Priority) :=
  ⟨(c6_testcase_payload_mapping realClient sampleTC).2.2.2.2.2.1 (by decide),
   (c6_testcase_payload_mapping realClient ({} : TestCase)).2.2.2.2.2.2 rfl⟩

/-- Claim C7: the issue-creation payload of CreateTestExecution holds only
summary, description, issue type Test Execution and the configured project
key (all other payload fields stay at their zero values), and the payload
does not depend on the testCases, environment or executionStatus of the
input: two inputs agreeing on summary and description yield the same
payload. -/
theorem c7_execution_payload_mapping (c : Client) (te : TestExecution) :
    createTestExecutionReq c te =
      { fields :=
        { summary := te.Summary
          description := te.Description
          issuetype := { name := "Test Execution" }
          project := { key := c.ProjectKey } } } ∧
    (∀ te2 : TestExecution, te2.Summary = te.Summary →
        te2.Description = te.Description →
        createTestExecutionReq c te2 = createTestExecutionReq c te) := by
  refine ⟨rfl, ?_⟩
  intro te2 h1 h2
  simp [createTestExecutionReq, h1, h2]

/-- Witness for c7_execution_payload_mapping: two executions differing only
in test cases, environment and execution status produce the same payload. -/
theorem c7_payload_witness :
    createTestExecutionReq realClient sampleTE2 =
      createTestExecutionReq realClient sampleTE :=
  (c7_execution_payload_mapping realClient sampleTE).2 sampleTE2 rfl rfl

/-- Claim C8: for every requested key the GET /api/testcases/:key handler
answers 200 with the canned entity whose key echoes the requested key, and
issues no backend call; the handler reads neither the client nor the
configuration, so the behaviour is the same under demo and real
credentials. -/
theorem c8_get_testcase_canned_echo (key : String) :
    (getTestCase key).1.status = 200 ∧
    (getTestCase key).1.testCase =
      { id := "10001"
        key := key
        summary := "Sample Test Case"
        description := "This is a sample test case"
        status := "To Do"
        priority := "Medium" } ∧
    (getTestCase key).1.message = "Test case retrieved successfully" ∧
    (getTestCase key).2 = [] :=
  ⟨rfl, rfl, rfl, rfl⟩

/-- Claim C9: with a username that is not demo_user but the placeholder API
token, the client is in demo mode (mock path for every operation, including
the list fallback) while healthCheck and getAPIInfo both report demo_mode
false. -/
theorem c9_demo_mode_mismatch :
    demoClient.isDemoCredentials = true ∧
    (healthCheck demoConfig).demo_mode = false ∧
    (getAPIInfo demoConfig).demo_mode = false ∧
    CreateTestCase demoClient 0 sampleTC (.transportErr "down") =
      (.ok (createMockTestCase sampleTC 0), []) ∧
    CreateTestExecution demoClient 0 sampleTE (.transportErr "down") =
      (.ok (createMockTestExecution sampleTE 0), []) ∧
    GetTestExecution demoClient 0 "EXEC-9" (.transportErr "down") =
      (.ok (getMockTestExecution "EXEC-9" 0), []) ∧
    (ListTestCases demoClient 0 (.resp { status := 500, body := .malformed })).1 =
      .ok (getMockTestCases 0) :=
  ⟨rfl, rfl, rfl, rfl, rfl, rfl, rfl⟩

/-- Claim C10: getEnvOrDefault yields the default both for an absent
variable and for one set to the empty string; LoadConfig cannot distinguish
a variable set to the empty string from an absent one; an empty or absent
JIRA_BASE_URL fails with its required error; an empty or absent PORT yields
the default 8080 in any successfully loaded configuration. -/
theorem c10_env_default_and_required (env : Env) :
    (∀ key d, (env key = none ∨ env key = some "") →
        getEnvOrDefault env key d = d) ∧
    (∀ key, env key = some "" →
        LoadConfig env = LoadConfig (fun k => if k = key then none else env k)) ∧
    ((env "JIRA_BASE_URL" = none ∨ env "JIRA_BASE_URL" = some "") →
        LoadConfig env = .error "JIRA_BASE_URL is required") ∧
    ((env "PORT" = none ∨ env "PORT" = some "") →
        ∀ config, LoadConfig env = .ok config → config.Port = "8080") := by
  refine ⟨?_, ?_, ?_, ?_⟩
  · intro key d hk
    rcases hk with hk | hk <;> simp [getEnvOrDefault, getenv, hk]
  · intro key hk
    have hg : ∀ k d,
        getEnvOrDefault (fun x => if x = key then none else env x) k d =
          getEnvOrDefault env k d := by
      intro k d
      by_cases h : k = key
      · subst h
        simp [getEnvOrDefault, getenv, hk]
      · simp [getEnvOrDefault, getenv, h]
    simp [LoadConfig, hg]
  · intro hk
    rcases hk with hk | hk <;> simp [LoadConfig, getEnvOrDefault, getenv, hk]
  · intro hk config hload
    have hport : getEnvOrDefault env "PORT" "8080" = "8080" := by
      rcases hk with hk | hk <;> simp [getEnvOrDefault, getenv, hk]
    simp [LoadConfig, hport] at hload
    split at hload
    · exact absurd hload (by simp)
    · split at hload
      · exact absurd hload (by simp)
      · split at hload
        · exact absurd hload (by simp)
        · split at hload
          · exact absurd hload (by simp)
          · cases hload
            simp [hport]

/-- Witness for c10_env_default_and_required: at env0 the empty-string base
URL fails as required, the empty PORT falls back to the default, and setting
a variable to the empty string equals unsetting it; at env1 (PORT absent,
LoadConfig succeeds) the loaded Port is 8080. -/
theorem c10_env_witness :
    getEnvOrDefault env0 "PORT" "8080" = "8080" ∧
    LoadConfig env0 = .error "JIRA_BASE_URL is required" ∧
    LoadConfig env0 = LoadConfig (fun k => if k = "JIRA_BASE_URL" then none else env0 k) ∧
    Config.Port { JiraBaseURL := "x", JiraUsername := "x", JiraAPIToken := "x",
                  JiraProjectKey := "x", Port := "8080" } = "8080" :=
  ⟨(c10_env_default_and_required env0).1 "PORT" "8080" (Or.inr rfl),
   (c10_env_default_and_required env0).2.2.1 (Or.inr rfl),
   (c10_env_default_and_required env0).2.1 "JIRA_BASE_URL" rfl,
   (c10_env_default_and_required env1).2.2.2 (Or.inl rfl)
     { JiraBaseURL := "x", JiraUsername := "x", JiraAPIToken := "x",
       JiraProjectKey := "x", Port := "8080" } rfl⟩

end JiraXray
